import Mathlib

namespace TestAgent

/-- JSON values as produced by Python's json.loads. Objects are ordered
key/value association lists (Python dicts preserve insertion order).
Numbers are modelled as integers: no claim of this development depends on
non-integer JSON numbers, and the parser below accepts only the integer
fragment of the JSON number grammar. -/
inductive Json where
  | null
  | bool (b : Bool)
  | num (n : Int)
  | str (s : String)
  | arr (els : List Json)
  | obj (kvs : List (String × Json))

/-- JSON whitespace accepted by json.loads between tokens. -/
def isJsonWs (c : Char) : Bool := c = ' ' || c = '\t' || c = '\n' || c = '\r'

def skipWs (cs : List Char) : List Char := cs.dropWhile isJsonWs

/-- Whitespace stripped by Python's str.strip() (ASCII fragment; the
source applies .strip() to model output before decoding). -/
def isPyWs (c : Char) : Bool :=
  c = ' ' || c = '\t' || c = '\n' || c = '\r' || c = '\x0b' || c = '\x0c'

/-- Model of Python str.strip(): drop leading and trailing whitespace. -/
def pyStrip (cs : List Char) : List Char :=
  ((cs.dropWhile isPyWs).reverse.dropWhile isPyWs).reverse

def listStartsWith : List Char → List Char → Bool
  | [], _ => true
  | _ :: _, [] => false
  | p :: ps, c :: cs => p = c && listStartsWith ps cs

/-- Value of a hex digit, as used in a JSON \u escape. -/
def hexVal (c : Char) : Option Nat :=
  if '0' ≤ c && c ≤ '9' then some (c.toNat - 48)
  else if 'a' ≤ c && c ≤ 'f' then some (c.toNat - 87)
  else if 'A' ≤ c && c ≤ 'F' then some (c.toNat - 55)
  else none

/-- Single-character JSON string escapes. -/
def escChar (c : Char) : Option Char :=
  if c = '"' then some '"'
  else if c = '\\' then some '\\'
  else if c = '/' then some '/'
  else if c = 'b' then some '\x08'
  else if c = 'f' then some '\x0c'
  else if c = 'n' then some '\n'
  else if c = 'r' then some '\r'
  else if c = 't' then some '\t'
  else none

/-- Body of a JSON string literal, after the opening quote: returns the
decoded characters and the input remaining after the closing quote.
json.loads rejects raw control characters below 0x20 inside strings.
A \uXXXX escape is decoded to the corresponding code point (surrogate
pairing is not modelled; no claim involves it). -/
def strChars : List Char → Option (List Char × List Char)
  | [] => none
  | '"' :: rest => some ([], rest)
  | '\\' :: 'u' :: h1 :: h2 :: h3 :: h4 :: rest =>
    match hexVal h1, hexVal h2, hexVal h3, hexVal h4 with
    | some a, some b, some c, some d =>
      (strChars rest).map (fun p => (Char.ofNat (((a * 16 + b) * 16 + c) * 16 + d) :: p.1, p.2))
    | _, _, _, _ => none
  | '\\' :: e :: rest =>
    match escChar e with
    | some c => (strChars rest).map (fun p => (c :: p.1, p.2))
    | none => none
  | c :: rest =>
    if c.toNat < 32 then none
    else (strChars rest).map (fun p => (c :: p.1, p.2))

def digitVal (c : Char) : Nat := c.toNat - 48

/-- Integer JSON number literal: optional minus sign, digits, with the
JSON no-leading-zero rule. (Fractions and exponents are outside the
modelled fragment; a following '.' or 'e' is simply left unconsumed,
which makes the surrounding parse fail as no JSON token starts there.) -/
def parseIntLit (cs : List Char) : Option (Int × List Char) :=
  let core : List Char → Option (Int × List Char) := fun l =>
    let ds := l.takeWhile Char.isDigit
    let rest := l.dropWhile Char.isDigit
    match ds with
    | [] => none
    | ['0'] => some (0, rest)
    | '0' :: _ :: _ => none
    | _ => some ((ds.foldl (fun a c => a * 10 + digitVal c) 0 : Nat), rest)
  match cs with
  | '-' :: l => (core l).map (fun p => (-p.1, p.2))
  | l => core l

/-- Insertion of a parsed object member in front of the (already
resolved) later members, with Python dict semantics for duplicate keys:
the first occurrence fixes the position, the last occurrence fixes the
value. -/
def objInsert (k : String) (v : Json) (kvs : List (String × Json)) : List (String × Json) :=
  match kvs.lookup k with
  | some v2 => (k, v2) :: kvs.eraseP (fun p => p.1 == k)
  | none => (k, v) :: kvs

/-- Recursive-descent JSON value parse, fuelled to make the recursion
structural. An array or object continues after a comma by re-entering
parseValue with the opening bracket re-attached, so a single
self-recursive function covers element lists; a trailing comma is
rejected before re-entry, as json.loads rejects it. -/
def parseValue : Nat → List Char → Option (Json × List Char)
  | 0, _ => none
  | Nat.succ fl, cs0 =>
    match skipWs cs0 with
    | [] => none
    | c :: rest =>
      if c = '\x7b' then
        match skipWs rest with
        | '\x7d' :: r2 => some (Json.obj [], r2)
        | '"' :: r1 =>
          match strChars r1 with
          | none => none
          | some (kChars, r2) =>
            match skipWs r2 with
            | ':' :: r3 =>
              match parseValue fl r3 with
              | none => none
              | some (v, r4) =>
                match skipWs r4 with
                | '\x7d' :: r5 => some (Json.obj (objInsert (String.mk kChars) v []), r5)
                | ',' :: r5 =>
                  if (skipWs r5).head? = some '\x7d' then none
                  else
                    match parseValue fl ('\x7b' :: r5) with
                    | some (Json.obj kvs, r6) =>
                      some (Json.obj (objInsert (String.mk kChars) v kvs), r6)
                    | _ => none
                | _ => none
            | _ => none
        | _ => none
      else if c = '[' then
        match skipWs rest with
        | ']' :: r2 => some (Json.arr [], r2)
        | r1 =>
          match parseValue fl r1 with
          | none => none
          | some (e, r2) =>
            match skipWs r2 with
            | ']' :: r3 => some (Json.arr [e], r3)
            | ',' :: r3 =>
              if (skipWs r3).head? = some ']' then none
              else
                match parseValue fl ('[' :: r3) with
                | some (Json.arr es, r4) => some (Json.arr (e :: es), r4)
                | _ => none
            | _ => none
      else if c = '"' then
        (strChars rest).map (fun p => (Json.str (String.mk p.1), p.2))
      else if listStartsWith "true".toList (c :: rest) then
        some (Json.bool true, (c :: rest).drop 4)
      else if listStartsWith "false".toList (c :: rest) then
        some (Json.bool false, (c :: rest).drop 5)
      else if listStartsWith "null".toList (c :: rest) then
        some (Json.null, (c :: rest).drop 4)
      else
        (parseIntLit (c :: rest)).map (fun p => (Json.num p.1, p.2))

/-- Model of json.loads on a character list: parse one JSON value and
require that only whitespace remains (json.loads raises on trailing
data). The fuel 2*length+2 dominates the number of recursive calls,
which is bounded by twice the number of parsed tokens. -/
def parseFull (cs : List Char) : Option Json :=
  match parseValue (2 * cs.length + 2) cs with
  | some (j, rest) => if (skipWs rest).isEmpty then some j else none
  | none => none

/-- Split at the first occurrence of a character: cs = a ++ c :: b with
c not in a. -/
def splitFirst (c : Char) : List Char → Option (List Char × List Char)
  | [] => none
  | x :: xs =>
    if x = c then some ([], xs)
    else (splitFirst c xs).map (fun p => (x :: p.1, p.2))

/-- Split at the last occurrence of a character: cs = a ++ c :: b with
c not in b. -/
def lastSplit (c : Char) (cs : List Char) : Option (List Char × List Char) :=
  match splitFirst c cs.reverse with
  | some (d, b) => some (b.reverse, d.reverse)
  | none => none

/-- The substring matched by re.search of the DOTALL regex openC.*closeC
(greedy): from the first openC to the last closeC, provided some closeC
occurs after the first openC. This models the regex fallbacks of the
decoder (patterns brace-to-brace and bracket-to-bracket). -/
def extractSpan (openC closeC : Char) (cs : List Char) : Option (List Char) :=
  match splitFirst openC cs with
  | none => none
  | some (_, b) =>
    match lastSplit closeC b with
    | none => none
    | some (m, _) => some (openC :: m ++ [closeC])

/-- Result of the resilient decoder: either a JSON value or the
value-level error carrying the diagnostic message the source builds. -/
inductive DecodeResult where
  | ok (j : Json)
  | err (msg : List Char)

/-- Diagnostic message built when every fallback layer fails
(app.py line 180): the fixed text followed by content[:500]. -/
def decodeErrMsg (content : List Char) : List Char :=
  "Failed to parse AI response as JSON: ".toList ++ content.take 500

/-- The layered-fallback decoder of generate_test_cases_for_batch
(app.py lines 147-180), applied to the stripped model output `content`:
1. json.loads(content);
2. re.search of brace-span regex (DOTALL), then json.loads of the match;
3. if content is non-empty, re.search of bracket-span regex (DOTALL),
   then json.loads of the match, wrapped as an object under "scenarios";
4. the value-level error result with the first 500 characters of
   content.
decodeArrLayer is layers 3-4, decode the full cascade. -/
def decodeArrLayer (content : List Char) : DecodeResult :=
  if content.isEmpty then DecodeResult.err (decodeErrMsg content)
  else
    match extractSpan '[' ']' content with
    | some sub =>
      match parseFull sub with
      | some a => DecodeResult.ok (Json.obj [("scenarios", a)])
      | none => DecodeResult.err (decodeErrMsg content)
    | none => DecodeResult.err (decodeErrMsg content)

def decode (content : List Char) : DecodeResult :=
  match parseFull content with
  | some j => DecodeResult.ok j
  | none =>
    match extractSpan '\x7b' '\x7d' content with
    | some sub =>
      match parseFull sub with
      | some j => DecodeResult.ok j
      | none => decodeArrLayer content
    | none => decodeArrLayer content

/-- The decoder applied to raw model text: the source strips the model
message (content = response...content.strip(), app.py line 144) before
the fallback layers. -/
def decodeRaw (raw : List Char) : DecodeResult := decode (pyStrip raw)

/-- The array-expecting decoder shared by generate_api_scenarios
(api_test_generator.py lines 207-224) and _generate_batch_test_cases
(lines 321-338): json.loads of the stripped content, else json.loads of
the bracket-span regex match, else a one-element list holding the error
object with the first 500 characters of the content. -/
def arrayDecode (content : List Char) : Json :=
  match parseFull content with
  | some j => j
  | none =>
    match extractSpan '[' ']' content with
    | some sub =>
      match parseFull sub with
      | some j => j
      | none => Json.arr [Json.obj [("error", Json.str (String.mk (decodeErrMsg content)))]]
    | none => Json.arr [Json.obj [("error", Json.str (String.mk (decodeErrMsg content)))]]

/-- Python truthiness of a JSON value ("if result[...]"). -/
def truthy : Json → Bool
  | Json.null => false
  | Json.bool b => b
  | Json.num n => decide (n ≠ 0)
  | Json.str s => !s.isEmpty
  | Json.arr l => !l.isEmpty
  | Json.obj kvs => !kvs.isEmpty

/-- Python v[0]: first element of a list, first character of a non-empty
string; anything else raises (IndexError/KeyError/TypeError), modelled
as none. -/
def pyIndex0 : Json → Option Json
  | Json.arr (x :: _) => some x
  | Json.str s =>
    match s.toList with
    | c :: _ => some (Json.str (String.mk [c]))
    | [] => none
  | _ => none

/-- Python `k in d` / d[k] for a dict-shaped value. For non-dict values
the source's `in` would be membership/substring (and indexing would
raise); the claims only exercise dict-shaped results, and non-objects
are modelled as not containing any key. -/
def jsonGet (j : Json) (k : String) : Option Json :=
  match j with
  | Json.obj kvs => kvs.lookup k
  | _ => none

/-- Model of generate_test_cases_for_batch (app.py lines 113-184). The
completion client is a parameter: ok gives the raw model text of the
chat completion, error models an exception raised by the API call,
caught by the function's outer handler which returns the error dict
with str(e) (lines 182-184). On success the stripped content goes
through the layered decoder; total decode failure yields the error dict
of line 180. -/
def generate_test_cases_for_batch (complete : List Json → Except String String)
    (scenarios : List Json) : Json :=
  match complete scenarios with
  | Except.error e => Json.obj [("error", Json.str e)]
  | Except.ok raw =>
    match decodeRaw raw.toList with
    | DecodeResult.ok j => j
    | DecodeResult.err m => Json.obj [("error", Json.str (String.mk m))]

/-- Model of process_single_scenario (app.py lines 72-86): run the batch
function on the singleton batch; if the result has a truthy "scenarios"
entry return its first element, else None. Indexing a truthy
non-indexable value would raise in the worker (re-raised by
future.result()), modelled as the error case. -/
def process_single_scenario (complete : List Json → Except String String)
    (scenario : Json) : Except String (Option Json) :=
  let result := generate_test_cases_for_batch complete [scenario]
  match jsonGet result "scenarios" with
  | some v =>
    if truthy v then
      match pyIndex0 v with
      | some x => Except.ok (some x)
      | none => Except.error "TypeError"
    else Except.ok none
  | none => Except.ok none

/-- The truthiness test of app.py line 98 on a collected unit result:
`if scenario_result:` appends the result only when it is truthy, so
None and falsy values (empty dict, empty list, 0, empty string, False)
are dropped alike. -/
def keepTruthy (o : Option Json) : Option Json :=
  match o with
  | some x => if truthy x then some x else none
  | none => none

/-- Sort key of app.py line 103, x.get('id', ''), together with the
comparisons list.sort performs on the keys, as a fallible operation: a
non-dict element makes the key function raise AttributeError, and a
non-string id value is modelled as the TypeError its comparison
against a string key raises; either exception fails the whole call via
the handler of app.py lines 108-110. (Python defers the TypeError to
the first actual comparison, so a list whose ids are all of one
comparable non-string type would sort by that type's order, and a
single-element sort performs no comparison; the pipeline's scenarios
carry string ids and no claim reaches those corners.) A missing id
defaults to the empty string. -/
def idKeyE (x : Json) : Except String (List Char) :=
  match x with
  | Json.obj kvs =>
    match kvs.lookup "id" with
    | some (Json.str s) => Except.ok s.toList
    | some _ => Except.error "TypeError"
    | none => Except.ok []
  | _ => Except.error "AttributeError"

/-- Total restriction of the sort key to the string-or-absent-id
envelope, used only to state sortedness of concrete result lists (the
orchestrator model itself uses the fallible idKeyE above). -/
def idKey (x : Json) : List Char :=
  match jsonGet x "id" with
  | some (Json.str s) => s.toList
  | _ => []

/-- Lexicographic code-point comparison, as Python compares strings. -/
def charListLt : List Char → List Char → Bool
  | [], [] => false
  | [], _ :: _ => true
  | _ :: _, [] => false
  | a :: as, b :: bs =>
    if a.toNat < b.toNat then true
    else if b.toNat < a.toNat then false
    else charListLt as bs

/-- Stable insertion by precomputed string key: an element goes before
the first strictly greater key, hence after earlier elements with an
equal key, matching the stability of Python's list.sort. -/
def insertKeyed (x : List Char × Json) : List (List Char × Json) → List (List Char × Json)
  | [] => [x]
  | y :: ys =>
    if charListLt y.1 x.1 then y :: insertKeyed x ys
    else x :: y :: ys

def sortKeyed : List (List Char × Json) → List (List Char × Json)
  | [] => []
  | x :: xs => insertKeyed x (sortKeyed xs)

/-- Model of all_results.sort(key=lambda x: x.get('id', '')) (app.py
line 103): evaluate the key once per element (as list.sort does,
decorate-sort-undecorate), propagating a key/comparison exception,
then sort stably by string key. -/
def sortByIdE (l : List Json) : Except String (List Json) :=
  match l.mapM (fun x => (idKeyE x).map (fun kk => (kk, x))) with
  | Except.error e => Except.error e
  | Except.ok pairs => Except.ok ((sortKeyed pairs).map Prod.snd)

/-- Model of generate_test_cases_for_scenarios (app.py lines 57-110),
the per-scenario-parallel variant. Each scenario is processed by one
unit (one completion call each, so the call count is the scenario
count); each collected unit result passes the truthiness test of line
98, dropping the None of a failed unit and falsy results alike; the
collected list, when non-empty, is sorted by id key, an exception from
the key function or the key comparisons failing the whole call. The
ThreadPoolExecutor pool (5 workers) only schedules the pure
per-scenario units, so the collected multiset is independent of
arrival order; the model collects in submission order (output may
differ from a particular run only in the relative order of equal-id
results, unconstrained by the source's stable sort over a
nondeterministic arrival order). An exception re-raised by
future.result() or raised by the sort is caught by the outer handler
(lines 108-110), yielding the error dict. Returns the result together
with the number of upstream completion calls issued. -/
def generate_test_cases_for_scenarios (complete : List Json → Except String String)
    (scenarios : List Json) : Json × Nat :=
  if scenarios.isEmpty then (Json.obj [("scenarios", Json.arr [])], 0)
  else
    match scenarios.mapM (process_single_scenario complete) with
    | Except.error e => (Json.obj [("error", Json.str e)], scenarios.length)
    | Except.ok opts =>
      let all_results := opts.filterMap keepTruthy
      match (if all_results.isEmpty then Except.ok all_results
          else sortByIdE all_results) with
      | Except.error e => (Json.obj [("error", Json.str e)], scenarios.length)
      | Except.ok sorted => (Json.obj [("scenarios", Json.arr sorted)], scenarios.length)

/-- Fixed-size batching of api_test_generator.py lines 242-243:
`for i in range(0, len(scenarios), batch_size)` with batch_size 3,
batch = scenarios[i:i+3]. -/
def chunks3 : List Json → List (List Json)
  | [] => []
  | [a] => [[a]]
  | [a, b] => [[a, b]]
  | a :: b :: c :: rest => [a, b, c] :: chunks3 rest

/-- Merge of api_test_generator.py lines 246-247: each batch result
that is a non-empty list is appended (extend) to the accumulator, in
batch order; anything else is skipped. -/
def mergeBatchResults (rs : List Json) : List Json :=
  rs.foldl
    (fun acc r =>
      match r with
      | Json.arr (x :: xs) => acc ++ (x :: xs)
      | _ => acc)
    []

/-- Model of _generate_batch_test_cases (api_test_generator.py lines
259-342): one completion call for the batch, the stripped content
decoded by the array-expecting decoder; an exception from the API call
is caught by the outer handler returning the one-element error list of
line 342. -/
def generate_batch_test_cases (complete : List Json → Except String String)
    (batch : List Json) : Json :=
  match complete batch with
  | Except.error e =>
    Json.arr [Json.obj [("error", Json.str ("Error in batch generation: " ++ e))]]
  | Except.ok raw => arrayDecode (pyStrip raw.toList)

/-- Model of generate_api_test_cases_for_scenarios
(api_test_generator.py lines 231-256): more than 5 scenarios are split
into batches of 3, one completion call per batch, and the per-batch
results merged by extension in batch order; otherwise a single batch
call covers all scenarios. Returns the result together with the number
of upstream completion calls issued (one per batch). The outer
exception handler of lines 254-256 is unreachable in the model, since
every step is total. -/
def generate_api_test_cases_for_scenarios (complete : List Json → Except String String)
    (scenarios : List Json) : Json × Nat :=
  if scenarios.length > 5 then
    let batches := chunks3 scenarios
    (Json.arr (mergeBatchResults (batches.map (generate_batch_test_cases complete))), batches.length)
  else
    (generate_batch_test_cases complete scenarios, 1)

/-- Python `k in d` for a dict, as a Bool. Non-dict values are modelled
as not containing any key (Python's `in` on them is membership or
substring search, or raises; no claim exercises that corner). -/
def hasKey (d : Json) (k : String) : Bool := (jsonGet d k).isSome

/-- Python d.get(k, dflt) for a dict-shaped value. On a non-dict the
source would raise AttributeError; the claims only pass dicts, and the
model yields the default. -/
def jsonGetD (d : Json) (k : String) (dflt : Json) : Json :=
  match jsonGet d k with
  | some v => v
  | none => dflt

/-- The condition of api_test_generator.py line 29:
`"info" in api_data and "name" in api_data.get("info", {})`. -/
def infoHasName (d : Json) : Bool :=
  hasKey d "info" && hasKey (jsonGetD d "info" (Json.obj [])) "name"

/-- Checks 2 and 3 of the detection (api_test_generator.py lines
36-43), reached when the first block falls through: swagger/openapi key
wins, then a list-valued "item" key means postman, else unknown. -/
def detectTail (d : Json) : String :=
  if hasKey d "swagger" || hasKey d "openapi" then "swagger"
  else if (match jsonGet d "item" with | some (Json.arr _) => true | _ => false) then "postman"
  else "unknown"

/-- Model of detect_api_document_type (api_test_generator.py lines
24-43). The first block returns postman when info.name and item are
both present, swagger when info.name is present with a swagger/openapi
key but no item, and otherwise falls through to the remaining checks. -/
def detect_api_document_type (d : Json) : String :=
  if infoHasName d then
    if hasKey d "item" then "postman"
    else if hasKey d "swagger" || hasKey d "openapi" then "swagger"
    else detectTail d
  else detectTail d

/-- Python dict.setdefault at the association-list level: keep the list
if the key is present, else append the key with the default (new keys
go to the end of a Python dict's order). -/
def sdList (kvs : List (String × Json)) (k : String) (v : Json) : List (String × Json) :=
  if (kvs.lookup k).isSome then kvs else kvs ++ [(k, v)]

/-- Python d[k] = v on a dict known to be reachable by assignment:
replace the value at the first matching key in place (Python keeps the
key's position), appending if absent. -/
def setPair : List (String × Json) → String → Json → List (String × Json)
  | [], k, v => [(k, v)]
  | (k1, v1) :: rest, k, v =>
    if k1 = k then (k, v) :: rest else (k1, v1) :: setPair rest k v

/-- The setdefault cascade of api_test_generator.py lines 459-466, in
source order. -/
def applyTCDefaults (kvs : List (String × Json)) : List (String × Json) :=
  sdList (sdList (sdList (sdList (sdList (sdList (sdList (sdList kvs
    "description" (Json.str ""))
    "priority" (Json.str "medium"))
    "category" (Json.str "functional"))
    "preconditions" (Json.arr []))
    "steps" (Json.arr []))
    "test_data" (Json.obj []))
    "expected_result" (Json.str ""))
    "validation_criteria" (Json.arr [])

/-- The per-test-case validation of generate_api_test_cases
(api_test_generator.py lines 456-467): a test case is kept only if it
is a dict with a "title" key, and the defaults are filled by setdefault
in source order. -/
def validate_test_case (tc : Json) : Option Json :=
  match tc with
  | Json.obj kvs =>
    if (kvs.lookup "title").isSome then some (Json.obj (applyTCDefaults kvs))
    else none
  | _ => none

/-- The coercion of api_test_generator.py lines 450-452: a non-list
test_cases value is overwritten with []. -/
def coerceTestCases (kvs : List (String × Json)) : List (String × Json) :=
  match kvs.lookup "test_cases" with
  | some (Json.arr _) => kvs
  | _ => setPair kvs "test_cases" (Json.arr [])

/-- The test-case list iterated over at api_test_generator.py line 456
(after the coercion it is always a list). -/
def tcsOf (kvs : List (String × Json)) : List Json :=
  match kvs.lookup "test_cases" with
  | some (Json.arr l) => l
  | _ => []

/-- The per-scenario validation of generate_api_test_cases
(api_test_generator.py lines 448-470): a scenario is kept only if it is
a dict with both a "title" and a "test_cases" key; a non-list
test_cases value is first overwritten with []; the test_cases entry is
then replaced by the list of validated test cases (line 469). -/
def validate_scenario (s : Json) : Option Json :=
  match s with
  | Json.obj kvs =>
    if (kvs.lookup "title").isSome && (kvs.lookup "test_cases").isSome then
      some (Json.obj (setPair (coerceTestCases kvs) "test_cases"
        (Json.arr ((tcsOf (coerceTestCases kvs)).filterMap validate_test_case))))
    else none
  | _ => none

/-- The validation loop of generate_api_test_cases
(api_test_generator.py lines 446-472): entries failing the scenario
check are dropped, the rest validated. -/
def validate_scenarios (l : List Json) : List Json := l.filterMap validate_scenario

/-- Characters allowed in a URL scheme by urllib.parse. -/
def schemeCharOk (c : Char) : Bool :=
  c.isAlpha || c.isDigit || c = '+' || c = '-' || c = '.'

/-- Model of urllib.parse.urlparse(url).path: strip a valid scheme up
to the first colon, strip a //netloc up to the next '/', '?' or '#',
and cut the remainder at the first '?' or '#'. -/
def urlparsePathChars (cs : List Char) : List Char :=
  let afterScheme :=
    match splitFirst ':' cs with
    | some (pre, rest) =>
      match pre with
      | [] => cs
      | p0 :: _ => if p0.isAlpha && pre.all schemeCharOk then rest else cs
    | none => cs
  let afterNet :=
    if listStartsWith "//".toList afterScheme then
      (afterScheme.drop 2).dropWhile (fun c => c ≠ '/' && c ≠ '?' && c ≠ '#')
    else afterScheme
  afterNet.takeWhile (fun c => c ≠ '?' && c ≠ '#')

/-- Python str() of a JSON value, modelled for scalars. The container
cases would render Python's repr; no claim depends on them and they are
marked as out of the modelled envelope. -/
def pyStr : Json → String
  | Json.str s => s
  | Json.bool true => "True"
  | Json.bool false => "False"
  | Json.null => "None"
  | Json.num n => toString n
  | Json.arr _ => "<container repr not modelled>"
  | Json.obj _ => "<container repr not modelled>"

/-- All elements string, as "/".join requires (a non-string element
raises TypeError in Python). -/
def allStrings : List Json → Option (List String)
  | [] => some []
  | Json.str s :: rest => (allStrings rest).map (fun l => s :: l)
  | _ :: _ => none

/-- "/".join(segs) over character lists. -/
def joinSlash (segs : List String) : List Char :=
  (List.intercalate ['/'] (segs.map String.toList))

/-- The URL-to-path logic of parse_postman_collection
(api_test_generator.py lines 97-118): a string URL is taken verbatim, a
dict URL with list host and list path becomes '/' + '/'.join(path), a
dict URL otherwise becomes str(url.get("raw", "")), any other value
becomes str(url); finally, a path starting with "http" is reduced to
urlparse(path).path. The error case models the TypeError "/".join
raises on non-string path segments. -/
def postman_url_to_path (url : Json) : Except String String :=
  let rawPath : Except String String :=
    match url with
    | Json.str s => Except.ok s
    | Json.obj _ =>
      match jsonGetD url "host" (Json.arr []), jsonGetD url "path" (Json.arr []) with
      | Json.arr _, Json.arr parts =>
        match allStrings parts with
        | some segs => Except.ok (String.mk ('/' :: joinSlash segs))
        | none => Except.error "TypeError"
      | _, _ => Except.ok (pyStr (jsonGetD url "raw" (Json.str "")))
    | other => Except.ok (pyStr other)
  match rawPath with
  | Except.error e => Except.error e
  | Except.ok p =>
    Except.ok (if listStartsWith "http".toList p.toList then String.mk (urlparsePathChars p.toList) else p)

/-- Model of the recursive extract_requests of parse_postman_collection
(api_test_generator.py lines 91-137). An item with a "request" key is a
leaf yielding one endpoint; an item with a list-valued "item" key is a
folder whose children are walked first (depth-first, matching the
shared accumulator of the source), with the accumulated but otherwise
unused folder path. Items of other shapes contribute nothing (Python's
`in` on them yields False in the typical string case; scalar items
would raise, outside the claims' envelope, as is a folder whose "item"
value is not a list). The fuel only bounds recursion depth plus item
count and makes the recursion structural; the source recursion is
bounded by the finite collection. -/
def extract_requests : Nat → List Json → String → Except String (List Json)
  | 0, _, _ => Except.error "RecursionError"
  | Nat.succ fl, items, parent_path =>
    match items with
    | [] => Except.ok []
    | item :: rest =>
      match item with
      | Json.obj kvs =>
        if (kvs.lookup "request").isSome then
          let request := jsonGetD item "request" Json.null
          let url := jsonGetD request "url" (Json.obj [])
          match postman_url_to_path url with
          | Except.error e => Except.error e
          | Except.ok path =>
            let endpoint := Json.obj
              [("path", Json.str path),
               ("method", jsonGetD request "method" (Json.str "GET")),
               ("name", jsonGetD item "name" (Json.str "")),
               ("description", jsonGetD request "description" (Json.str "")),
               ("headers", jsonGetD request "header" (Json.arr [])),
               ("body", jsonGetD request "body" (Json.obj [])),
               ("auth", jsonGetD request "auth" (Json.obj [])),
               ("tests", jsonGetD item "event" (Json.arr []))]
            match extract_requests fl rest parent_path with
            | Except.error e => Except.error e
            | Except.ok eps => Except.ok (endpoint :: eps)
        else
          match kvs.lookup "item" with
          | some (Json.arr sub) =>
            let folder_path := parent_path ++ "/" ++ pyStr (jsonGetD item "name" (Json.str ""))
            match extract_requests fl sub folder_path with
            | Except.error e => Except.error e
            | Except.ok subEps =>
              match extract_requests fl rest parent_path with
              | Except.error e => Except.error e
              | Except.ok eps => Except.ok (subEps ++ eps)
          | _ => extract_requests fl rest parent_path
      | _ => extract_requests fl rest parent_path

/-- Model of parse_postman_collection (api_test_generator.py lines
81-140): title and description from info (with the source's defaults),
endpoints from the recursive walk of the item list. -/
def parse_postman_collection (fuel : Nat) (d : Json) : Except String Json :=
  let info := jsonGetD d "info" (Json.obj [])
  let items :=
    match jsonGet d "item" with
    | some (Json.arr l) => l
    | _ => []
  match extract_requests fuel items "" with
  | Except.error e => Except.error e
  | Except.ok eps =>
    Except.ok (Json.obj
      [("title", jsonGetD info "name" (Json.str "Postman Collection")),
       ("description", jsonGetD info "description" (Json.str "")),
       ("endpoints", Json.arr eps)])

/-- The shape a top-level entry must have to be retained by the
validation loop: a dict with both a "title" and a "test_cases" key
(api_test_generator.py line 449). -/
def scenarioShapeOk (s : Json) : Bool :=
  match s with
  | Json.obj kvs => (kvs.lookup "title").isSome && (kvs.lookup "test_cases").isSome
  | _ => false

def isArr : Json → Bool
  | Json.arr _ => true
  | _ => false

/-- Non-decreasing id-key sequence: what "sorted by scenario id" means
for a result list. -/
def sortedByIdChain : List Json → Bool
  | [] => true
  | [_] => true
  | x :: y :: rest => !charListLt (idKey y) (idKey x) && sortedByIdChain (y :: rest)

/-- A document carrying info.name, item, and a swagger marker at once. -/
def postmanSwaggerDoc : Json :=
  Json.obj [("info", Json.obj [("name", Json.str "x")]), ("item", Json.arr []),
    ("swagger", Json.str "2.0")]

/-- A scenario with a title but no test_cases key. -/
def titleOnlyScenario : Json := Json.obj [("title", Json.str "A")]

/-- Raw text with a valid JSON object embedded in prose whose trailing
prose contains a further closing brace. -/
def proseWithExtraBrace : List Char := "x \x7b\"a\": 1\x7d y\x7d".toList

/-- Completion oracle for the batch-expansion instance: the three
batches decode to scenarios with ids B, A and C respectively. -/
def completeC4 : List Json → Except String String := fun batch =>
  match batch with
  | [Json.str "s1", _, _] => Except.ok "[\x7b\"id\": \"B\"\x7d]"
  | [Json.str "s4", _, _] => Except.ok "[\x7b\"id\": \"A\"\x7d]"
  | _ => Except.ok "[\x7b\"id\": \"C\"\x7d]"

/-- A Postman collection with one request whose URL is a plain relative
string. -/
def relativeUrlColl : Json :=
  Json.obj [("info", Json.obj [("name", Json.str "C")]),
    ("item", Json.arr [Json.obj [("name", Json.str "r1"),
      ("request", Json.obj [("url", Json.str "users"), ("method", Json.str "GET")])]])]

/-- A Postman collection with one request whose URL is the absolute
example URL of the specification. -/
def absoluteUrlColl : Json :=
  Json.obj [("info", Json.obj [("name", Json.str "C")]),
    ("item", Json.arr [Json.obj [("name", Json.str "r1"),
      ("request", Json.obj [("url", Json.str "https://api.example.com/v1/users"),
        ("method", Json.str "GET")])]])]

theorem lookup_setPair_self (kvs : List (String × Json)) (k : String) (v : Json) :
    (setPair kvs k v).lookup k = some v := by
  induction kvs with
  | nil => simp [setPair, List.lookup]
  | cons p rest ih =>
    obtain ⟨k1, v1⟩ := p
    by_cases h : k1 = k
    · subst h
      simp [setPair, List.lookup]
    · have hb : (k == k1) = false := beq_eq_false_iff_ne.mpr (Ne.symm h)
      simp [setPair, h, List.lookup, hb, ih]

theorem lookup_setPair_ne (kvs : List (String × Json)) (k k1 : String) (v : Json)
    (h : k1 ≠ k) : (setPair kvs k v).lookup k1 = kvs.lookup k1 := by
  induction kvs with
  | nil =>
    have hb : (k1 == k) = false := beq_eq_false_iff_ne.mpr h
    simp [setPair, List.lookup, hb]
  | cons p rest ih =>
    obtain ⟨k2, v2⟩ := p
    by_cases h2 : k2 = k
    · subst h2
      have hb : (k1 == k2) = false := beq_eq_false_iff_ne.mpr h
      simp [setPair, List.lookup, hb]
    · simp [setPair, h2, List.lookup, ih]

theorem setPair_lookup_eq (kvs : List (String × Json)) (k : String) (v : Json)
    (h : kvs.lookup k = some v) : setPair kvs k v = kvs := by
  induction kvs with
  | nil => simp [List.lookup] at h
  | cons p rest ih =>
    obtain ⟨k1, v1⟩ := p
    by_cases h1 : k1 = k
    · subst h1
      simp [List.lookup] at h
      simp [setPair, h]
    · have hb : (k == k1) = false := beq_eq_false_iff_ne.mpr (Ne.symm h1)
      simp [List.lookup, hb] at h
      simp [setPair, h1, ih h]

theorem lookup_append_isSome (l1 l2 : List (String × Json)) (k : String)
    (h : (l1.lookup k).isSome = true) : (l1 ++ l2).lookup k = l1.lookup k := by
  induction l1 with
  | nil => simp [List.lookup] at h
  | cons p rest ih =>
    obtain ⟨k1, v1⟩ := p
    by_cases h1 : k = k1
    · subst h1
      simp [List.lookup]
    · have hb : (k == k1) = false := beq_eq_false_iff_ne.mpr h1
      simp only [List.cons_append, List.lookup, hb] at h ⊢
      exact ih h

theorem lookup_sdList_isSome_mono (kvs : List (String × Json)) (k k1 : String) (v : Json)
    (h : (kvs.lookup k1).isSome = true) : ((sdList kvs k v).lookup k1).isSome = true := by
  unfold sdList
  split
  · exact h
  · rw [lookup_append_isSome _ _ _ h]
    exact h

theorem lookup_append_single_self (kvs : List (String × Json)) (k : String) (v : Json) :
    ((kvs ++ [(k, v)]).lookup k).isSome = true := by
  induction kvs with
  | nil => simp [List.lookup]
  | cons p rest ih =>
    obtain ⟨k1, v1⟩ := p
    by_cases h1 : k = k1
    · subst h1
      simp [List.lookup]
    · have hb : (k == k1) = false := beq_eq_false_iff_ne.mpr h1
      simp only [List.cons_append, List.lookup, hb]
      exact ih

theorem lookup_sdList_self (kvs : List (String × Json)) (k : String) (v : Json) :
    ((sdList kvs k v).lookup k).isSome = true := by
  unfold sdList
  split
  · assumption
  · exact lookup_append_single_self kvs k v

theorem sdList_of_isSome (kvs : List (String × Json)) (k : String) (v : Json)
    (h : (kvs.lookup k).isSome = true) : sdList kvs k v = kvs := by
  simp [sdList, h]

/-- C10: the per-scenario-parallel expansion returns the empty scenario
object immediately on an empty scenario list (app.py lines 63-64),
issuing zero upstream completion calls (the second component counts
completion calls in the model). -/
theorem c10_empty_input_no_calls (complete : List Json → Except String String) :
    generate_test_cases_for_scenarios complete [] = (Json.obj [("scenarios", Json.arr [])], 0) := rfl

/-- C8: the decoder is the identity on already-valid input: whenever
the stripped raw text parses as JSON (layer 1, json.loads), decode
returns exactly that parse, unchanged. -/
theorem c8_decode_identity_on_valid (raw : List Char) (j : Json)
    (h : parseFull (pyStrip raw) = some j) : decodeRaw raw = DecodeResult.ok j := by
  unfold decodeRaw decode
  rw [h]

theorem c8_witness :
    parseFull (pyStrip "  \x7b\"scenarios\": []\x7d ".toList)
        = some (Json.obj [("scenarios", Json.arr [])]) ∧
      decodeRaw "  \x7b\"scenarios\": []\x7d ".toList
        = DecodeResult.ok (Json.obj [("scenarios", Json.arr [])]) :=
  ⟨rfl, c8_decode_identity_on_valid _ _ rfl⟩

/-- C6 counterexample: a document with info.name, an item key and a
swagger key is classified "postman" by the code, not "swagger" as the
claim states — the item check of api_test_generator.py line 30 fires
before the swagger check of line 32. -/
theorem c6_counterexample :
    detect_api_document_type postmanSwaggerDoc = "postman" ∧
      detect_api_document_type postmanSwaggerDoc ≠ "swagger" :=
  ⟨rfl, by decide⟩

/-- C6 amended: for every top-level object containing info.name
together with both an item key and a swagger/openapi key, detection
classifies it as "postman" — the item check takes precedence, and
swagger markers decide only when item is absent. -/
theorem c6_amended (d : Json)
    (h1 : infoHasName d = true) (h2 : hasKey d "item" = true)
    (_h3 : (hasKey d "swagger" || hasKey d "openapi") = true) :
    detect_api_document_type d = "postman" := by
  unfold detect_api_document_type
  rw [h1, h2]
  rfl

theorem c6_witness :
    infoHasName postmanSwaggerDoc = true ∧ hasKey postmanSwaggerDoc "item" = true ∧
      (hasKey postmanSwaggerDoc "swagger" || hasKey postmanSwaggerDoc "openapi") = true ∧
      detect_api_document_type postmanSwaggerDoc = "postman" :=
  ⟨rfl, rfl, rfl, c6_amended postmanSwaggerDoc rfl rfl rfl⟩

/-- C5 counterexample: an object-shaped scenario with a title but no
test_cases key is dropped entirely by the validation loop
(api_test_generator.py line 449 also requires the test_cases key), not
retained with test_cases coerced to [] as the claim states. -/
theorem c5_counterexample :
    validate_scenarios [titleOnlyScenario] = [] ∧
      validate_scenarios [titleOnlyScenario]
        ≠ [Json.obj [("title", Json.str "A"), ("test_cases", Json.arr [])]] :=
  ⟨rfl, fun h => nomatch h⟩

/-- C5 amended: the validation drops each top-level entry that is not
an object, lacks a title key, or lacks a test_cases key; for each
retained scenario a non-list test_cases value is coerced to the empty
list; and the input list of one well-formed scenario and one scenario
missing title validates to a list of length 1. -/
theorem c5_validate_shape :
    (∀ s : Json, validate_scenario s = none ↔ scenarioShapeOk s = false) ∧
    (∀ (kvs : List (String × Json)) (v : Json),
      (kvs.lookup "title").isSome = true → kvs.lookup "test_cases" = some v →
      isArr v = false →
      validate_scenario (Json.obj kvs)
        = some (Json.obj (setPair kvs "test_cases" (Json.arr [])))) ∧
    validate_scenarios
        [Json.obj [("title", Json.str "S1"), ("test_cases", Json.arr [])],
         Json.obj [("description", Json.str "missing title")]]
      = [Json.obj [("title", Json.str "S1"), ("test_cases", Json.arr [])]] := by
  refine ⟨?_, ?_, rfl⟩
  · intro s
    cases s with
    | obj kvs =>
      unfold validate_scenario scenarioShapeOk
      by_cases h : ((kvs.lookup "title").isSome && (kvs.lookup "test_cases").isSome) = true
      · simp [h]
      · simp only [Bool.not_eq_true] at h
        simp [h]
    | null => simp [validate_scenario, scenarioShapeOk]
    | bool b => simp [validate_scenario, scenarioShapeOk]
    | num n => simp [validate_scenario, scenarioShapeOk]
    | str s => simp [validate_scenario, scenarioShapeOk]
    | arr l => simp [validate_scenario, scenarioShapeOk]
  · intro kvs v h1 h2 h3
    have hsp := setPair_lookup_eq _ _ _ (lookup_setPair_self kvs "test_cases" (Json.arr []))
    cases v with
    | arr l => simp [isArr] at h3
    | null => simp [validate_scenario, coerceTestCases, tcsOf, h1, h2, lookup_setPair_self, hsp]
    | bool b => simp [validate_scenario, coerceTestCases, tcsOf, h1, h2, lookup_setPair_self, hsp]
    | num n => simp [validate_scenario, coerceTestCases, tcsOf, h1, h2, lookup_setPair_self, hsp]
    | str s => simp [validate_scenario, coerceTestCases, tcsOf, h1, h2, lookup_setPair_self, hsp]
    | obj kvs2 => simp [validate_scenario, coerceTestCases, tcsOf, h1, h2, lookup_setPair_self, hsp]

theorem c5_witness :
    validate_scenario (Json.str "not a dict") = none ∧
      validate_scenario (Json.obj [("title", Json.str "T"), ("test_cases", Json.num 5)])
        = some (Json.obj (setPair [("title", Json.str "T"), ("test_cases", Json.num 5)]
            "test_cases" (Json.arr []))) :=
  ⟨(c5_validate_shape.1 (Json.str "not a dict")).mpr rfl,
   c5_validate_shape.2.1 [("title", Json.str "T"), ("test_cases", Json.num 5)]
     (Json.num 5) rfl rfl rfl⟩

theorem lookup_applyTCDefaults_mono (kvs : List (String × Json)) (k1 : String)
    (h : (kvs.lookup k1).isSome = true) :
    ((applyTCDefaults kvs).lookup k1).isSome = true := by
  unfold applyTCDefaults
  apply lookup_sdList_isSome_mono
  apply lookup_sdList_isSome_mono
  apply lookup_sdList_isSome_mono
  apply lookup_sdList_isSome_mono
  apply lookup_sdList_isSome_mono
  apply lookup_sdList_isSome_mono
  apply lookup_sdList_isSome_mono
  apply lookup_sdList_isSome_mono
  exact h

theorem applyTCDefaults_of_all_present (kvs : List (String × Json))
    (h1 : (kvs.lookup "description").isSome = true)
    (h2 : (kvs.lookup "priority").isSome = true)
    (h3 : (kvs.lookup "category").isSome = true)
    (h4 : (kvs.lookup "preconditions").isSome = true)
    (h5 : (kvs.lookup "steps").isSome = true)
    (h6 : (kvs.lookup "test_data").isSome = true)
    (h7 : (kvs.lookup "expected_result").isSome = true)
    (h8 : (kvs.lookup "validation_criteria").isSome = true) :
    applyTCDefaults kvs = kvs := by
  unfold applyTCDefaults
  rw [sdList_of_isSome _ _ _ h1, sdList_of_isSome _ _ _ h2, sdList_of_isSome _ _ _ h3,
    sdList_of_isSome _ _ _ h4, sdList_of_isSome _ _ _ h5, sdList_of_isSome _ _ _ h6,
    sdList_of_isSome _ _ _ h7, sdList_of_isSome _ _ _ h8]

theorem applyTCDefaults_idem (kvs : List (String × Json)) :
    applyTCDefaults (applyTCDefaults kvs) = applyTCDefaults kvs := by
  apply applyTCDefaults_of_all_present
  · unfold applyTCDefaults
    iterate 7 apply lookup_sdList_isSome_mono
    exact lookup_sdList_self _ _ _
  · unfold applyTCDefaults
    iterate 6 apply lookup_sdList_isSome_mono
    exact lookup_sdList_self _ _ _
  · unfold applyTCDefaults
    iterate 5 apply lookup_sdList_isSome_mono
    exact lookup_sdList_self _ _ _
  · unfold applyTCDefaults
    iterate 4 apply lookup_sdList_isSome_mono
    exact lookup_sdList_self _ _ _
  · unfold applyTCDefaults
    iterate 3 apply lookup_sdList_isSome_mono
    exact lookup_sdList_self _ _ _
  · unfold applyTCDefaults
    iterate 2 apply lookup_sdList_isSome_mono
    exact lookup_sdList_self _ _ _
  · unfold applyTCDefaults
    apply lookup_sdList_isSome_mono
    exact lookup_sdList_self _ _ _
  · unfold applyTCDefaults
    exact lookup_sdList_self _ _ _

theorem validate_test_case_fix (tc u : Json) (h : validate_test_case tc = some u) :
    validate_test_case u = some u := by
  cases tc with
  | obj kvs =>
    simp only [validate_test_case] at h
    by_cases ht : (kvs.lookup "title").isSome = true
    · rw [if_pos ht] at h
      have hu : u = Json.obj (applyTCDefaults kvs) := (Option.some.inj h).symm
      subst hu
      simp only [validate_test_case]
      rw [if_pos (lookup_applyTCDefaults_mono kvs "title" ht), applyTCDefaults_idem]
    · rw [if_neg ht] at h
      exact nomatch h
  | null => exact nomatch h
  | bool b => exact nomatch h
  | num n => exact nomatch h
  | str s => exact nomatch h
  | arr l => exact nomatch h

theorem filterMap_fix_of {α : Type} (g : α → Option α) (l : List α)
    (hg : ∀ a b, g a = some b → g b = some b) :
    (l.filterMap g).filterMap g = l.filterMap g := by
  induction l with
  | nil => rfl
  | cons a t ih =>
    cases hga : g a with
    | none => simp [List.filterMap_cons, hga, ih]
    | some b => simp [List.filterMap_cons, hga, hg a b hga, ih]

theorem coerce_lookup_other (kvs : List (String × Json)) (k1 : String)
    (hne : k1 ≠ "test_cases") :
    (coerceTestCases kvs).lookup k1 = kvs.lookup k1 := by
  unfold coerceTestCases
  split
  · rfl
  · exact lookup_setPair_ne _ _ _ _ hne

theorem coerce_of_arr (kvs : List (String × Json)) (l : List Json)
    (h : kvs.lookup "test_cases" = some (Json.arr l)) : coerceTestCases kvs = kvs := by
  unfold coerceTestCases
  rw [h]

theorem tcsOf_of_arr (kvs : List (String × Json)) (l : List Json)
    (h : kvs.lookup "test_cases" = some (Json.arr l)) : tcsOf kvs = l := by
  unfold tcsOf
  rw [h]

theorem validate_scenario_fix (s u : Json) (h : validate_scenario s = some u) :
    validate_scenario u = some u := by
  cases s with
  | obj kvs =>
    simp only [validate_scenario] at h
    by_cases hg : ((kvs.lookup "title").isSome && (kvs.lookup "test_cases").isSome) = true
    · rw [if_pos hg] at h
      have hg2 := hg
      simp only [Bool.and_eq_true] at hg2
      obtain ⟨ht, _htc⟩ := hg2
      have hu : u = Json.obj (setPair (coerceTestCases kvs) "test_cases"
          (Json.arr ((tcsOf (coerceTestCases kvs)).filterMap validate_test_case))) :=
        (Option.some.inj h).symm
      subst hu
      have hK : (setPair (coerceTestCases kvs) "test_cases"
          (Json.arr ((tcsOf (coerceTestCases kvs)).filterMap validate_test_case))).lookup
            "test_cases"
          = some (Json.arr ((tcsOf (coerceTestCases kvs)).filterMap validate_test_case)) :=
        lookup_setPair_self _ _ _
      have htitleK : ((setPair (coerceTestCases kvs) "test_cases"
          (Json.arr ((tcsOf (coerceTestCases kvs)).filterMap validate_test_case))).lookup
            "title").isSome = true := by
        rw [lookup_setPair_ne _ _ _ _ (by decide), coerce_lookup_other _ _ (by decide)]
        exact ht
      simp only [validate_scenario]
      rw [if_pos (by rw [htitleK, hK] ; rfl)]
      rw [coerce_of_arr _ _ hK, tcsOf_of_arr _ _ hK,
        filterMap_fix_of validate_test_case _ validate_test_case_fix,
        setPair_lookup_eq _ _ _ hK]
    · rw [if_neg hg] at h
      exact nomatch h
  | null => exact nomatch h
  | bool b => exact nomatch h
  | num n => exact nomatch h
  | str s => exact nomatch h
  | arr l => exact nomatch h

/-- C9: the validation loop is idempotent: applying it twice to any
scenario list (in particular to any already-valid one) yields the same
result as applying it once — repeated defaulting causes no field
drift, since setdefault never touches a present key and the test_cases
replacement rewrites the same value. -/
theorem c9_validate_idempotent (l : List Json) :
    validate_scenarios (validate_scenarios l) = validate_scenarios l :=
  filterMap_fix_of validate_scenario l validate_scenario_fix

theorem decodeArrLayer_total (content : List Char) :
    (∃ j, decodeArrLayer content = DecodeResult.ok j) ∨
      decodeArrLayer content = DecodeResult.err (decodeErrMsg content) := by
  unfold decodeArrLayer
  split
  · exact Or.inr rfl
  · split
    · split
      · exact Or.inl ⟨_, rfl⟩
      · exact Or.inr rfl
    · exact Or.inr rfl

theorem decode_total (content : List Char) :
    (∃ j, decode content = DecodeResult.ok j) ∨
      decode content = DecodeResult.err (decodeErrMsg content) := by
  unfold decode
  split
  · exact Or.inl ⟨_, rfl⟩
  · split
    · split
      · exact Or.inl ⟨_, rfl⟩
      · exact decodeArrLayer_total content
    · exact decodeArrLayer_total content

/-- C1 amended: for every raw model text whose stripped form is
non-empty, decode either succeeds or returns the value-level error
whose message carries the first 500 characters of the stripped text —
at most 500 characters, and a non-empty excerpt. (On raw text that
strips to the empty string all layers still fail into the error value,
but the excerpt is empty — see the counterexample.) Failure is always a
data value: decode and the batch wrapper around it are total functions,
the modelled except handlers turning every failure path into an error
object. -/
theorem c1_decode_error_excerpt (raw : List Char) (h : pyStrip raw ≠ []) :
    (∃ j, decodeRaw raw = DecodeResult.ok j) ∨
      (decodeRaw raw = DecodeResult.err (decodeErrMsg (pyStrip raw)) ∧
        ((pyStrip raw).take 500).length ≤ 500 ∧ (pyStrip raw).take 500 ≠ []) := by
  rcases decode_total (pyStrip raw) with hok | herr
  · exact Or.inl hok
  · refine Or.inr ⟨herr, ?_, ?_⟩
    · rw [List.length_take]
      exact min_le_left _ _
    · cases hc : pyStrip raw with
      | nil => exact absurd hc h
      | cons x xs => simp

/-- C1 counterexample: on raw text that strips to the empty string
(e.g. whitespace only), every fallback layer fails and the error
result's excerpt — content[:500] of the stripped content — is empty,
so the error does not carry a non-empty excerpt for every raw text as
the claim states. -/
theorem c1_counterexample :
    decodeRaw "  \n ".toList
        = DecodeResult.err "Failed to parse AI response as JSON: ".toList ∧
      (pyStrip "  \n ".toList).take 500 = [] :=
  ⟨rfl, rfl⟩

theorem c1_witness :
    pyStrip "I cannot help with that.".toList ≠ [] ∧
      ((∃ j, decodeRaw "I cannot help with that.".toList = DecodeResult.ok j) ∨
        (decodeRaw "I cannot help with that.".toList
            = DecodeResult.err (decodeErrMsg (pyStrip "I cannot help with that.".toList)) ∧
          ((pyStrip "I cannot help with that.".toList).take 500).length ≤ 500 ∧
          (pyStrip "I cannot help with that.".toList).take 500 ≠ [])) :=
  ⟨by decide, c1_decode_error_excerpt _ (by decide)⟩

theorem splitFirst_append (c : Char) (a b : List Char) (h : c ∉ a) :
    splitFirst c (a ++ c :: b) = some (a, b) := by
  induction a with
  | nil => simp [splitFirst]
  | cons x xs ih =>
    have hx : x ≠ c := fun e => h (e ▸ List.mem_cons_self x xs)
    have hxs : c ∉ xs := fun m => h (List.mem_cons_of_mem x m)
    simp [splitFirst, hx, ih hxs]

theorem lastSplit_append (c : Char) (a b : List Char) (h : c ∉ b) :
    lastSplit c (a ++ c :: b) = some (a, b) := by
  unfold lastSplit
  rw [show (a ++ c :: b).reverse = b.reverse ++ c :: a.reverse by simp]
  rw [splitFirst_append c _ _ (by simpa using h)]
  simp

theorem extractSpan_embed (p mid s : List Char) (hp : '\x7b' ∉ p) (hs : '\x7d' ∉ s) :
    extractSpan '\x7b' '\x7d' (p ++ ('\x7b' :: mid ++ ['\x7d']) ++ s)
      = some ('\x7b' :: mid ++ ['\x7d']) := by
  unfold extractSpan
  rw [show p ++ ('\x7b' :: mid ++ ['\x7d']) ++ s = p ++ '\x7b' :: (mid ++ '\x7d' :: s) by simp]
  rw [splitFirst_append _ _ _ hp]
  dsimp only
  rw [lastSplit_append _ _ _ hs]

/-- C2 amended: the decoder applies its layers in order, short-
circuiting on first success. Its brace layer recovers an embedded JSON
object exactly when the surrounding prose does not defeat the greedy
regex: if the stripped content is prose ++ object ++ prose where the
leading prose has no opening brace, the trailing prose has no closing
brace, and the full content is not itself valid JSON, decode returns
exactly the embedded object's parse. If the brace layers fail and the
content is non-empty, a bracket span that parses is wrapped as an
object under "scenarios". (Unrestricted prose can defeat recovery —
see the counterexample with a stray closing brace in the trailer.) -/
theorem c2_decode_layers :
    (∀ (p mid s : List Char) (j : Json),
      '\x7b' ∉ p → '\x7d' ∉ s →
      parseFull ('\x7b' :: mid ++ ['\x7d']) = some j →
      parseFull (p ++ ('\x7b' :: mid ++ ['\x7d']) ++ s) = none →
      decode (p ++ ('\x7b' :: mid ++ ['\x7d']) ++ s) = DecodeResult.ok j) ∧
    (∀ (content sub : List Char) (a : Json),
      parseFull content = none →
      (∀ bsub, extractSpan '\x7b' '\x7d' content = some bsub → parseFull bsub = none) →
      content ≠ [] →
      extractSpan '[' ']' content = some sub →
      parseFull sub = some a →
      decode content = DecodeResult.ok (Json.obj [("scenarios", a)])) := by
  constructor
  · intro p mid s j hp hs hjt hfull
    unfold decode
    rw [hfull]
    dsimp only
    rw [extractSpan_embed p mid s hp hs]
    dsimp only
    rw [hjt]
  · intro content sub a h1 h2 hne harr hsub
    unfold decode
    rw [h1]
    dsimp only
    have hempty : content.isEmpty = false := by
      cases content
      · exact absurd rfl hne
      · rfl
    have harrLayer : decodeArrLayer content = DecodeResult.ok (Json.obj [("scenarios", a)]) := by
      unfold decodeArrLayer
      rw [hempty]
      rw [if_neg (by decide : ¬ (false = true))]
      rw [harr]
      dsimp only
      rw [hsub]
    cases hbr : extractSpan '\x7b' '\x7d' content with
    | some bsub =>
      dsimp only
      rw [h2 bsub hbr]
      exact harrLayer
    | none =>
      exact harrLayer

/-- C2 counterexample: the raw text x \x7b"a": 1\x7d y\x7d embeds the
valid JSON object \x7b"a": 1\x7d inside leading/trailing prose, but the
greedy brace regex spans to the stray closing brace of the trailer, the
extracted span fails to parse, there is no bracket span, and decode
returns the error value instead of recovering the embedded object. -/
theorem c2_counterexample :
    parseFull "\x7b\"a\": 1\x7d".toList = some (Json.obj [("a", Json.num 1)]) ∧
      proseWithExtraBrace
        = "x ".toList ++ "\x7b\"a\": 1\x7d".toList ++ " y\x7d".toList ∧
      decode proseWithExtraBrace = DecodeResult.err (decodeErrMsg proseWithExtraBrace) :=
  ⟨rfl, rfl, rfl⟩

theorem c2_witness :
    decode ("Here is the result: ".toList
        ++ ('\x7b' :: "\"scenarios\": []".toList ++ ['\x7d']) ++ " Thanks!".toList)
      = DecodeResult.ok (Json.obj [("scenarios", Json.arr [])]) ∧
    decode "no object here [1, 2] end".toList
      = DecodeResult.ok (Json.obj [("scenarios", Json.arr [Json.num 1, Json.num 2])]) :=
  ⟨c2_decode_layers.1 "Here is the result: ".toList "\"scenarios\": []".toList
     " Thanks!".toList (Json.obj [("scenarios", Json.arr [])])
     (by decide) (by decide) rfl rfl,
   c2_decode_layers.2 "no object here [1, 2] end".toList "[1, 2]".toList
     (Json.arr [Json.num 1, Json.num 2]) rfl (fun bsub hb => nomatch hb) (by decide) rfl rfl⟩

/-- C4 counterexample: with seven scenarios the three batch calls
decode to scenarios with ids B, A and C; the merged result is their
concatenation in batch order, which is not sorted by scenario id as the
claim states (the batch path of api_test_generator.py never sorts; only
the per-scenario-parallel path of app.py does). -/
theorem c4_counterexample :
    (generate_api_test_cases_for_scenarios completeC4
        [Json.str "s1", Json.str "s2", Json.str "s3", Json.str "s4", Json.str "s5",
         Json.str "s6", Json.str "s7"]).1
      = Json.arr [Json.obj [("id", Json.str "B")], Json.obj [("id", Json.str "A")],
          Json.obj [("id", Json.str "C")]] ∧
    sortedByIdChain [Json.obj [("id", Json.str "B")], Json.obj [("id", Json.str "A")],
        Json.obj [("id", Json.str "C")]] = false :=
  ⟨rfl, rfl⟩

/-- C4 amended: batch expansion of a list of 7 scenarios with batch
size 3 issues exactly 3 upstream completion calls, covering 3, 3 and 1
scenarios respectively, and merges the per-batch results by
concatenation in batch order (each batch result that is a non-empty
list is appended); no sorting by id is applied, and the merged length
is the sum of the per-batch result lengths rather than being bounded
by 7. -/
theorem c4_batching (complete : List Json → Except String String)
    (s1 s2 s3 s4 s5 s6 s7 : Json) :
    chunks3 [s1, s2, s3, s4, s5, s6, s7] = [[s1, s2, s3], [s4, s5, s6], [s7]] ∧
    generate_api_test_cases_for_scenarios complete [s1, s2, s3, s4, s5, s6, s7]
      = (Json.arr (mergeBatchResults
          [generate_batch_test_cases complete [s1, s2, s3],
           generate_batch_test_cases complete [s4, s5, s6],
           generate_batch_test_cases complete [s7]]), 3) :=
  ⟨rfl, rfl⟩

theorem allStrings_map (segs : List String) :
    allStrings (segs.map Json.str) = some segs := by
  induction segs with
  | nil => rfl
  | cons a t ih => simp [allStrings, ih]

/-- C7 counterexample: a Postman request whose URL is the plain string
"users" produces an endpoint whose path is "users" verbatim — the
parser only strips URLs that start with "http", so not every produced
endpoint has a path starting with '/'. -/
theorem c7_counterexample :
    parse_postman_collection 10 relativeUrlColl
        = Except.ok (Json.obj
            [("title", Json.str "C"), ("description", Json.str ""),
             ("endpoints", Json.arr [Json.obj
               [("path", Json.str "users"), ("method", Json.str "GET"),
                ("name", Json.str "r1"), ("description", Json.str ""),
                ("headers", Json.arr []), ("body", Json.obj []),
                ("auth", Json.obj []), ("tests", Json.arr [])]])]) ∧
      listStartsWith "/".toList "users".toList = false :=
  ⟨rfl, rfl⟩

/-- C7 amended: endpoint paths are normalized in two cases only — a
string URL starting with "http" is reduced to its urlparse path
component (so "https://api.example.com/v1/users" yields "/v1/users"
through the full collection parse), and a structured URL with list
host and list-of-strings path yields '/' + '/'-joined segments, which
starts with '/'. Other string URLs are kept verbatim and need not
start with '/' (and an absolute URL with an empty path component
yields the empty string). -/
theorem c7_postman_paths :
    (∀ s : String, listStartsWith "http".toList s.toList = true →
      postman_url_to_path (Json.str s)
        = Except.ok (String.mk (urlparsePathChars s.toList))) ∧
    (∀ (hostL : List Json) (segs : List String),
      postman_url_to_path
          (Json.obj [("host", Json.arr hostL), ("path", Json.arr (segs.map Json.str))])
        = Except.ok (String.mk ('/' :: joinSlash segs))) ∧
    parse_postman_collection 10 absoluteUrlColl
      = Except.ok (Json.obj
          [("title", Json.str "C"), ("description", Json.str ""),
           ("endpoints", Json.arr [Json.obj
             [("path", Json.str "/v1/users"), ("method", Json.str "GET"),
              ("name", Json.str "r1"), ("description", Json.str ""),
              ("headers", Json.arr []), ("body", Json.obj []),
              ("auth", Json.obj []), ("tests", Json.arr [])]])]) := by
  refine ⟨?_, ?_, rfl⟩
  · intro s hs
    unfold postman_url_to_path
    dsimp only
    rw [hs]
    rw [if_pos rfl]
  · intro hostL segs
    have h := allStrings_map segs
    show (match (match allStrings (segs.map Json.str) with
        | some segs2 => Except.ok (String.mk ('/' :: joinSlash segs2))
        | none => Except.error "TypeError") with
      | Except.error e => Except.error e
      | Except.ok p => Except.ok (if listStartsWith "http".toList p.toList
          then String.mk (urlparsePathChars p.toList) else p))
      = Except.ok (String.mk ('/' :: joinSlash segs))
    rw [h]
    dsimp only
    rw [show listStartsWith "http".toList (String.mk ('/' :: joinSlash segs)).toList
      = false from rfl]
    rw [if_neg (by decide : ¬ (false = true))]

theorem c7_witness :
    listStartsWith "http".toList "https://api.example.com/v1/users".toList = true ∧
      postman_url_to_path (Json.str "https://api.example.com/v1/users")
        = Except.ok (String.mk (urlparsePathChars "https://api.example.com/v1/users".toList)) ∧
      String.mk (urlparsePathChars "https://api.example.com/v1/users".toList) = "/v1/users" :=
  ⟨by decide, c7_postman_paths.1 "https://api.example.com/v1/users" (by decide), rfl⟩

end TestAgent
